import Mathlib

/-!
Verification of the Polymarket signal pipeline (whale detection, alignment
scoring, rate limiting, research orchestration) against its specification.

Each Python source function relevant to the checked properties is shallowly
embedded as an executable Lean definition:

* money amounts, odds and scores are rationals (`ℚ`);
* `datetime` values are minutes since an epoch (`ℕ`), with a calendar day
  being `t / 1440` and `(a - b).days` embedded as a given day count;
* Python `dict.get` tables become total functions with the same defaults;
* Python string membership (`kw in text`) becomes an explicit character-list
  containment check;
* fallible / optional results become `Option`.
-/

namespace Polymarket

/-! ## String utilities

Python's `kw in text` substring test, over explicit character lists. -/

/-- `charsHas text kw` is `true` when `kw` occurs as a contiguous run
inside `text` (Python's `kw in text` on strings). -/
def charsHas (text kw : List Char) : Bool :=
  match text with
  | [] => kw.isEmpty
  | _ :: rest => kw.isPrefixOf text || charsHas rest kw

/-- Substring test on `String`s, mirroring Python's `in` operator. -/
def strHas (text kw : String) : Bool :=
  charsHas text.data kw.data

/-! ## Alignment scorer (`src/core/alignment_scorer.py`)

`AlignmentScorer.calculate` combines a whale/news trigger with research
results and the market's current odds into a 0–100 score across five
independently capped components. -/

/-- One research result, as consumed by the scorer: its `source` key, its
heuristic `direction` tag, and — when a `published_date` is present — the
integer number of days `(now - published_date).days`. -/
structure ResearchResult where
  source : String
  direction : String
  daysOld : Option ℤ
  deriving Repr, DecidableEq

/-- `ScoreComponent` from `src/models/score_result.py`. -/
structure ScoreComponent where
  name : String
  score : ℚ
  max_score : ℚ
  reason : String
  deriving Repr, DecidableEq

/-- `ScoreResult` from `src/models/score_result.py` (the fields the scorer
fills in; `top_reasons`, a display-only list of reason strings picked by
`_get_top_reasons`, carries no checked obligation and is omitted). -/
structure ScoreResult where
  market_id : String
  whale_direction : String
  total_score : ℚ
  components : List ScoreComponent
  should_alert : Bool
  deriving Repr, DecidableEq

/-- The module-level `SOURCE_CREDIBILITY` table; `.get(source, 10)` gives the
default 10 for unknown sources. -/
def SOURCE_CREDIBILITY (s : String) : ℚ :=
  if s = "arxiv" then 30
  else if s = "exa" then 28
  else if s = "rss" then 20
  else if s = "newsapi" then 12
  else 10

/-- The module-level `SOURCE_RECENCY_PENALTY` table; `.get(source, 1.0)`
gives the default 1 for unknown sources. -/
def SOURCE_RECENCY_PENALTY (s : String) : ℚ :=
  if s = "newsapi" then 1/2
  else if s = "rss" then 1
  else if s = "arxiv" then 9/10
  else if s = "exa" then 1
  else 1

/-- `AlignmentScorer._calc_credibility`: mean of the per-source credibility
values, capped at 30; no results scores 0. (The `reason` text is abridged;
only `name`, `score`, `max_score` carry obligations.) -/
def calc_credibility (results : List ResearchResult) : ScoreComponent :=
  if results.isEmpty then
    ⟨"Credibilidade", 0, 30, "Sem resultados"⟩
  else
    let total := (results.map (fun r => SOURCE_CREDIBILITY r.source)).sum
    let avg := total / (results.length : ℚ)
    ⟨"Credibilidade", min avg 30, 30, "Melhor fonte"⟩

/-- The age bucket of `_calc_recency`: 20/17/14/10/5/2 points by days old. -/
def recencyBase (daysOld : ℤ) : ℚ :=
  if daysOld ≤ 1 then 20
  else if daysOld ≤ 3 then 17
  else if daysOld ≤ 7 then 14
  else if daysOld ≤ 14 then 10
  else if daysOld ≤ 30 then 5
  else 2

/-- `AlignmentScorer._calc_recency`: over results having a `published_date`,
average `recencyBase × SOURCE_RECENCY_PENALTY`, cap at 20; a result without a
date is skipped; no results at all scores 0. -/
def calc_recency (results : List ResearchResult) : ScoreComponent :=
  if results.isEmpty then
    ⟨"Recência", 0, 20, "Sem resultados"⟩
  else
    let dated := results.filterMap
      (fun r => r.daysOld.map (fun d => recencyBase d * SOURCE_RECENCY_PENALTY r.source))
    let avg := if 0 < dated.length then dated.sum / (dated.length : ℚ) else 0
    ⟨"Recência", min avg 20, 20, "fontes analisadas"⟩

/-- `AlignmentScorer._calc_consensus`: among results tagged YES or NO, the
fraction agreeing with the trigger direction, bucketed ≥80%→25, ≥60%→18,
≥40%→10, else 3; results but none directional → 5; no results → 0. -/
def calc_consensus (whale_dir : String) (results : List ResearchResult) : ScoreComponent :=
  if results.isEmpty then
    ⟨"Consenso", 0, 25, "Sem resultados"⟩
  else
    let directional := results.filter (fun r => r.direction = "YES" ∨ r.direction = "NO")
    if directional.isEmpty then
      ⟨"Consenso", 5, 25, "Sem direção clara"⟩
    else
      let aligned := (directional.filter (fun r => r.direction = whale_dir)).length
      let pct : ℚ := ((aligned : ℚ) / (directional.length : ℚ)) * 100
      if 80 ≤ pct then ⟨"Consenso", 25, 25, "Forte"⟩
      else if 60 ≤ pct then ⟨"Consenso", 18, 25, "Moderado"⟩
      else if 40 ≤ pct then ⟨"Consenso", 10, 25, "Misto"⟩
      else ⟨"Consenso", 3, 25, "Contra"⟩

/-- `AlignmentScorer._calc_specificity`: ≥2 arxiv results → 15, ≥1 → 12,
else ≥2 exa/rss results → 8, else 4; no results → 0. -/
def calc_specificity (results : List ResearchResult) : ScoreComponent :=
  if results.isEmpty then
    ⟨"Especificidade", 0, 15, "Sem resultados"⟩
  else
    let high_count := (results.filter (fun r => r.source = "arxiv")).length
    let med_count := (results.filter (fun r => r.source = "exa" ∨ r.source = "rss")).length
    if 2 ≤ high_count then ⟨"Especificidade", 15, 15, "alta especificidade"⟩
    else if 1 ≤ high_count then ⟨"Especificidade", 12, 15, "fonte técnica"⟩
    else if 2 ≤ med_count then ⟨"Especificidade", 8, 15, "média especificidade"⟩
    else ⟨"Especificidade", 4, 15, "Fontes genéricas apenas"⟩

/-- `AlignmentScorer._calc_divergence`: gap `100 - odds` for a YES trigger
and `odds` otherwise, bucketed ≥40→10, ≥25→7, ≥15→4, else 1. -/
def calc_divergence (whale_dir : String) (current_odds : ℚ) : ScoreComponent :=
  let divergence := if whale_dir = "YES" then 100 - current_odds else current_odds
  if 40 ≤ divergence then ⟨"Divergência", 10, 10, "Alta divergência"⟩
  else if 25 ≤ divergence then ⟨"Divergência", 7, 10, "Divergência moderada"⟩
  else if 15 ≤ divergence then ⟨"Divergência", 4, 10, "Baixa divergência"⟩
  else ⟨"Divergência", 1, 10, "Whale segue consenso"⟩

/-- The odds the scorer actually uses: `__init__` stores
`current_odds or 50.0` and `calculate` rebinds it via
`if current_odds: self.current_odds = current_odds` — Python truthiness, so
`None` and `0` both fall back. -/
def effectiveOdds (init_odds call_odds : Option ℚ) : ℚ :=
  let base :=
    match init_odds with
    | none => 50
    | some v => if v = 0 then 50 else v
  match call_odds with
  | none => base
  | some v => if v = 0 then base else v

/-- `AlignmentScorer.calculate`: the five components in order, their sum as
`total_score`, and `should_alert = total_score ≥ THRESHOLD` with
`THRESHOLD = 70`. -/
def calculate (init_odds call_odds : Option ℚ) (market_id whale_direction : String)
    (results : List ResearchResult) : ScoreResult :=
  let odds := effectiveOdds init_odds call_odds
  let comps := [calc_credibility results,
                calc_recency results,
                calc_consensus whale_direction results,
                calc_specificity results,
                calc_divergence whale_direction odds]
  let total := (comps.map (fun c => c.score)).sum
  { market_id := market_id
    whale_direction := whale_direction
    total_score := total
    components := comps
    should_alert := decide (70 ≤ total) }

/-! ### Component bounds -/

lemma SOURCE_CREDIBILITY_nonneg (s : String) : 0 ≤ SOURCE_CREDIBILITY s := by
  unfold SOURCE_CREDIBILITY; split_ifs <;> norm_num

lemma recencyBase_nonneg (d : ℤ) : 0 ≤ recencyBase d := by
  unfold recencyBase; split_ifs <;> norm_num

lemma SOURCE_RECENCY_PENALTY_nonneg (s : String) : 0 ≤ SOURCE_RECENCY_PENALTY s := by
  unfold SOURCE_RECENCY_PENALTY; split_ifs <;> norm_num

lemma calc_credibility_shape (results : List ResearchResult) :
    (calc_credibility results).name = "Credibilidade" ∧
    (calc_credibility results).max_score = 30 ∧
    0 ≤ (calc_credibility results).score ∧
    (calc_credibility results).score ≤ 30 := by
  unfold calc_credibility
  split_ifs with h
  · exact ⟨rfl, rfl, le_refl 0, by norm_num⟩
  · refine ⟨rfl, rfl, ?_, min_le_right _ _⟩
    refine le_min (div_nonneg ?_ (by positivity)) (by norm_num)
    exact List.sum_nonneg (by
      intro x hx
      rcases List.mem_map.mp hx with ⟨r, _, rfl⟩
      exact SOURCE_CREDIBILITY_nonneg r.source)

lemma calc_recency_shape (results : List ResearchResult) :
    (calc_recency results).name = "Recência" ∧
    (calc_recency results).max_score = 20 ∧
    0 ≤ (calc_recency results).score ∧
    (calc_recency results).score ≤ 20 := by
  simp only [calc_recency]
  split_ifs with h hlen
  · exact ⟨rfl, rfl, le_refl 0, by norm_num⟩
  · refine ⟨rfl, rfl, ?_, min_le_right _ _⟩
    refine le_min ?_ (by norm_num)
    refine div_nonneg ?_ (by positivity)
    refine List.sum_nonneg ?_
    intro x hx
    rcases List.mem_filterMap.mp hx with ⟨r, _, hr⟩
    rcases Option.map_eq_some'.mp hr with ⟨d, _, rfl⟩
    exact mul_nonneg (recencyBase_nonneg d) (SOURCE_RECENCY_PENALTY_nonneg r.source)
  · exact ⟨rfl, rfl, le_min (le_refl 0) (by norm_num), min_le_right _ _⟩

lemma calc_consensus_shape (wd : String) (results : List ResearchResult) :
    (calc_consensus wd results).name = "Consenso" ∧
    (calc_consensus wd results).max_score = 25 ∧
    0 ≤ (calc_consensus wd results).score ∧
    (calc_consensus wd results).score ≤ 25 := by
  simp only [calc_consensus]
  split_ifs <;> exact ⟨rfl, rfl, by norm_num, by norm_num⟩

lemma calc_specificity_shape (results : List ResearchResult) :
    (calc_specificity results).name = "Especificidade" ∧
    (calc_specificity results).max_score = 15 ∧
    0 ≤ (calc_specificity results).score ∧
    (calc_specificity results).score ≤ 15 := by
  simp only [calc_specificity]
  split_ifs <;> exact ⟨rfl, rfl, by norm_num, by norm_num⟩

lemma calc_divergence_shape (wd : String) (odds : ℚ) :
    (calc_divergence wd odds).name = "Divergência" ∧
    (calc_divergence wd odds).max_score = 10 ∧
    0 ≤ (calc_divergence wd odds).score ∧
    (calc_divergence wd odds).score ≤ 10 := by
  simp only [calc_divergence]
  split_ifs <;> exact ⟨rfl, rfl, by norm_num, by norm_num⟩

/-! ### Theorems for the scorer claims -/

/-- C2: every `ScoreResult` produced by `AlignmentScorer.calculate` has
exactly the 5 components Credibilidade ≤ 30, Recência ≤ 20, Consenso ≤ 25,
Especificidade ≤ 15, Divergência ≤ 10, each score within `[0, max_score]`,
and `total_score` is their sum, hence within `[0, 100]`. -/
theorem C2_score_result_invariants (io co : Option ℚ) (mid wd : String)
    (results : List ResearchResult) :
    (calculate io co mid wd results).components.length = 5 ∧
    (calculate io co mid wd results).components.map (fun c => c.name) =
      ["Credibilidade", "Recência", "Consenso", "Especificidade", "Divergência"] ∧
    (calculate io co mid wd results).components.map (fun c => c.max_score) =
      [30, 20, 25, 15, 10] ∧
    (∀ c ∈ (calculate io co mid wd results).components,
      0 ≤ c.score ∧ c.score ≤ c.max_score) ∧
    (calculate io co mid wd results).total_score =
      ((calculate io co mid wd results).components.map (fun c => c.score)).sum ∧
    0 ≤ (calculate io co mid wd results).total_score ∧
    (calculate io co mid wd results).total_score ≤ 100 := by
  obtain ⟨n1, m1, l1, u1⟩ := calc_credibility_shape results
  obtain ⟨n2, m2, l2, u2⟩ := calc_recency_shape results
  obtain ⟨n3, m3, l3, u3⟩ := calc_consensus_shape wd results
  obtain ⟨n4, m4, l4, u4⟩ := calc_specificity_shape results
  obtain ⟨n5, m5, l5, u5⟩ := calc_divergence_shape wd (effectiveOdds io co)
  refine ⟨rfl, ?_, ?_, ?_, rfl, ?_, ?_⟩
  · show [(calc_credibility results).name, (calc_recency results).name,
      (calc_consensus wd results).name, (calc_specificity results).name,
      (calc_divergence wd (effectiveOdds io co)).name] = _
    rw [n1, n2, n3, n4, n5]
  · show [(calc_credibility results).max_score, (calc_recency results).max_score,
      (calc_consensus wd results).max_score, (calc_specificity results).max_score,
      (calc_divergence wd (effectiveOdds io co)).max_score] = _
    rw [m1, m2, m3, m4, m5]
  · intro c hc
    simp only [calculate, List.mem_cons, List.not_mem_nil, or_false] at hc
    rcases hc with rfl | rfl | rfl | rfl | rfl
    · exact ⟨l1, m1 ▸ u1⟩
    · exact ⟨l2, m2 ▸ u2⟩
    · exact ⟨l3, m3 ▸ u3⟩
    · exact ⟨l4, m4 ▸ u4⟩
    · exact ⟨l5, m5 ▸ u5⟩
  · show (0 : ℚ) ≤ (calc_credibility results).score +
      ((calc_recency results).score + ((calc_consensus wd results).score +
        ((calc_specificity results).score +
          ((calc_divergence wd (effectiveOdds io co)).score + 0))))
    have := add_nonneg l1 (add_nonneg l2 (add_nonneg l3 (add_nonneg l4
      (add_nonneg l5 (le_refl (0 : ℚ))))))
    simpa using this
  · show (calc_credibility results).score +
      ((calc_recency results).score + ((calc_consensus wd results).score +
        ((calc_specificity results).score +
          ((calc_divergence wd (effectiveOdds io co)).score + 0)))) ≤ 100
    calc (calc_credibility results).score +
        ((calc_recency results).score + ((calc_consensus wd results).score +
          ((calc_specificity results).score +
            ((calc_divergence wd (effectiveOdds io co)).score + 0))))
        ≤ 30 + (20 + (25 + (15 + (10 + 0)))) :=
          add_le_add u1 (add_le_add u2 (add_le_add u3 (add_le_add u4
            (add_le_add u5 (le_refl (0 : ℚ))))))
      _ = 100 := by norm_num

/-- C1: `should_alert` holds exactly when `total_score ≥ 70`, and the
boundary is exact — a concrete input with `total_score = 70` alerts, and a
concrete input with `total_score = 69 < 70` does not. -/
theorem C1_should_alert_iff_threshold :
    (∀ (io co : Option ℚ) (mid wd : String) (results : List ResearchResult),
      (calculate io co mid wd results).should_alert = true ↔
        70 ≤ (calculate io co mid wd results).total_score) ∧
    (calculate none (some 85) "m" "YES"
      [⟨"arxiv", "YES", none⟩, ⟨"exa", "YES", none⟩]).total_score = 70 ∧
    (calculate none (some 85) "m" "YES"
      [⟨"arxiv", "YES", none⟩, ⟨"exa", "YES", none⟩]).should_alert = true ∧
    (calculate none (some 70) "m" "YES"
      [⟨"arxiv", "YES", none⟩, ⟨"rss", "YES", none⟩]).total_score < 70 ∧
    (calculate none (some 70) "m" "YES"
      [⟨"arxiv", "YES", none⟩, ⟨"rss", "YES", none⟩]).should_alert = false := by
  refine ⟨?_, ?_, ?_, ?_, ?_⟩
  · intro io co mid wd results
    simp only [calculate]
    exact decide_eq_true_iff
  · simp [calculate, calc_credibility, calc_recency, calc_consensus,
      calc_specificity, calc_divergence, effectiveOdds, SOURCE_CREDIBILITY,
      SOURCE_RECENCY_PENALTY, List.filter, List.filterMap]
    norm_num
  · simp [calculate, calc_credibility, calc_recency, calc_consensus,
      calc_specificity, calc_divergence, effectiveOdds, SOURCE_CREDIBILITY,
      SOURCE_RECENCY_PENALTY, List.filter, List.filterMap]
    norm_num
  · simp [calculate, calc_credibility, calc_recency, calc_consensus,
      calc_specificity, calc_divergence, effectiveOdds, SOURCE_CREDIBILITY,
      SOURCE_RECENCY_PENALTY, List.filter, List.filterMap]
    norm_num
  · simp [calculate, calc_credibility, calc_recency, calc_consensus,
      calc_specificity, calc_divergence, effectiveOdds, SOURCE_CREDIBILITY,
      SOURCE_RECENCY_PENALTY, List.filter, List.filterMap]
    norm_num

/-- The spec's divergence bucket table: gap ≥ 40 → 10, ≥ 25 → 7, ≥ 15 → 4,
else 1. -/
def divergenceBucket (gap : ℚ) : ℚ :=
  if 40 ≤ gap then 10 else if 25 ≤ gap then 7 else if 15 ≤ gap then 4 else 1

/-- C6 counterexample: a NO trigger at `currentOdds = 20` has gap 20, which
falls in the `≥ 15` bucket, so the divergence component scores 4 — not 1 as
the claim states. -/
theorem C6_divergence_no20_counterexample :
    (calc_divergence "NO" 20).score = 4 ∧ (calc_divergence "NO" 20).score ≠ 1 := by
  constructor
  · simp [calc_divergence]; norm_num
  · simp [calc_divergence]; norm_num

/-- C6 amended: divergence is computed from the trigger direction and
`currentOdds` only, with gap `100 - odds` for YES and `odds` for NO, scored
by the bucket table ≥40→10, ≥25→7, ≥15→4, else 1; a YES trigger at odds 20
yields 10 and a NO trigger at odds 20 yields 4 (gap 20 is in the ≥15
bucket). -/
theorem C6_divergence_amended :
    (∀ odds : ℚ, (calc_divergence "YES" odds).score = divergenceBucket (100 - odds)) ∧
    (∀ odds : ℚ, (calc_divergence "NO" odds).score = divergenceBucket odds) ∧
    (calc_divergence "YES" 20).score = 10 ∧
    (calc_divergence "NO" 20).score = 4 := by
  refine ⟨?_, ?_, ?_, ?_⟩
  · intro odds
    simp only [calc_divergence, divergenceBucket, if_pos rfl]
    split_ifs <;> rfl
  · intro odds
    simp only [calc_divergence, divergenceBucket,
      if_neg (by decide : ¬("NO" : String) = "YES")]
    split_ifs <;> rfl
  · simp [calc_divergence]; norm_num
  · simp [calc_divergence]; norm_num

/-! ## Whale exclusion filter (`src/core/whale_filter.py`)

`WhaleFilter` keeps a wallet → `TraderStats` cache and a blacklist;
`is_excluded` first consults those, then (only when a trade list was
supplied) analyzes the trades and applies the exclusion rules. -/

/-- Python's `str.lower()` / `str.upper()`, as character-list maps. -/
def pyLower (s : String) : String := String.mk (s.data.map Char.toLower)

/-- See `pyLower`. -/
def pyUpper (s : String) : String := String.mk (s.data.map Char.toUpper)

/-- `TraderStats` from `src/core/whale_filter.py` (`avg_holding_minutes` is
always 0 in the source — `holding_times` is collected but never filled — and
is omitted). -/
structure TraderStats where
  wallet_address : String
  total_trades_30d : ℕ
  trades_today : ℕ
  has_yes_and_no : Bool
  markets_traded : List String
  is_excluded : Bool
  exclusion_reason : String
  deriving Repr, DecidableEq

/-- The mutable state of a `WhaleFilter`: the `_trader_cache` dict (as an
association list where the head entry shadows later ones, matching dict
overwrite) and the `_blacklist` set. -/
structure WhaleFilterState where
  trader_cache : List (String × TraderStats)
  blacklist : List String
  deriving Repr, DecidableEq

def MAX_TRADES_PER_DAY : ℕ := 50

def MAX_TRADES_30_DAYS : ℕ := 500

def EXCLUDED_MARKET_PATTERNS : List String :=
  ["up/down", "up or down", "above", "below", "price"]

/-- `WhaleFilter.is_excluded_market`: some excluded pattern occurs in the
lowercased market name. -/
def is_excluded_market (market_name : String) : Bool :=
  EXCLUDED_MARKET_PATTERNS.any (fun p => strHas (pyLower market_name) p)

/-- One raw trade as consumed by `WhaleFilter._analyze_trades`. `timestamp`
is minutes since an epoch; `none` models a record without a timestamp (the
string-parse-failure fallback in the source sets the time to `now`, which a
caller models as `some now`). -/
structure FilterTrade where
  timestamp : Option ℕ
  side : String
  market_id : Option String
  token_id : Option String
  deriving Repr, DecidableEq

/-- The side values `_analyze_trades` records in `sides_seen`. -/
def SIDE_VALUES : List String := ["BUY", "SELL", "YES", "NO"]

/-- Python's `a or b` on optional strings (`None` and `""` are falsy). -/
def orStr (a b : Option String) : Option String :=
  match a with
  | some s => if s = "" then b else some s
  | none => b

/-- `WhaleFilter._analyze_trades`: counts trades of the current calendar day
(`t / 1440 = now / 1440`) and of the last 30 days (`now - 43200 < t`,
minutes), collects the distinct side values seen across ALL trades, and sets
`has_yes_and_no` when at least two distinct side values occurred — the
source's `len(sides_seen) >= 2`, with no same-market pairing. -/
def analyze_trades (wallet : String) (trades : List FilterTrade) (now : ℕ) :
    TraderStats :=
  let count30 := (trades.filter (fun t =>
    match t.timestamp with
    | some ts => decide (now - 43200 < ts)
    | none => false)).length
  let countToday := (trades.filter (fun t =>
    match t.timestamp with
    | some ts => decide (ts / 1440 = now / 1440)
    | none => false)).length
  let sides_seen := ((trades.map (fun t => pyUpper t.side)).filter
    (fun s => s ∈ SIDE_VALUES)).eraseDups
  let markets := (trades.filterMap (fun t =>
    match orStr t.market_id t.token_id with
    | some m => if m = "" then none else some m
    | none => none)).eraseDups
  { wallet_address := wallet
    total_trades_30d := count30
    trades_today := countToday
    has_yes_and_no := decide (2 ≤ sides_seen.length)
    markets_traded := markets
    is_excluded := false
    exclusion_reason := "" }

/-- `WhaleFilter._apply_exclusion_rules`, first match wins. (The source's
reason strings carry the offending count in an f-string; the tag is kept.) -/
def apply_exclusion_rules (stats : TraderStats) : Bool × String :=
  if MAX_TRADES_PER_DAY < stats.trades_today then (true, "high_frequency_today")
  else if MAX_TRADES_30_DAYS < stats.total_trades_30d then (true, "high_frequency_30d")
  else if stats.has_yes_and_no then (true, "hedging_detected")
  else (false, "")

/-- The tail of `WhaleFilter.is_excluded` after the blacklist/cache checks:
`if not trades: return False, ""`, otherwise analyze, record in the cache,
and blacklist on exclusion. -/
def is_excluded_analyze (st : WhaleFilterState) (wallet : String)
    (trades : Option (List FilterTrade)) (now : ℕ) :
    (Bool × String) × WhaleFilterState :=
  match trades with
  | none => ((false, ""), st)
  | some [] => ((false, ""), st)
  | some ts =>
    let stats := analyze_trades wallet ts now
    let res := apply_exclusion_rules stats
    let stats' := { stats with is_excluded := res.1, exclusion_reason := res.2 }
    (res,
     { trader_cache := (wallet, stats') :: st.trader_cache
       blacklist := if res.1 then wallet :: st.blacklist else st.blacklist })

/-- `WhaleFilter.is_excluded`: blacklist first, then a cached excluded
verdict, then — only when trades were supplied — fresh analysis. A cached
non-excluded entry falls through to the trade analysis, exactly as in the
source. -/
def is_excluded (st : WhaleFilterState) (wallet : String)
    (trades : Option (List FilterTrade)) (now : ℕ) :
    (Bool × String) × WhaleFilterState :=
  if wallet ∈ st.blacklist then ((true, "blacklisted"), st)
  else
    match st.trader_cache.lookup wallet with
    | some stats =>
      if stats.is_excluded then ((true, stats.exclusion_reason), st)
      else is_excluded_analyze st wallet trades now
    | none => is_excluded_analyze st wallet trades now

/-! ## Whale event detector (`src/core/whale_detector.py`) -/

/-- A raw trade record from the CLOB feed, as read by `_evaluate_trade`. -/
structure WhaleTrade where
  maker : Option String
  taker : Option String
  size_usd : ℚ
  side : String
  deriving Repr, DecidableEq

/-- `trade.get("maker") or trade.get("taker", "unknown")`. -/
def tradeWallet (t : WhaleTrade) : String :=
  orStr t.maker (some (match t.taker with | some s => s | none => "unknown"))
    |>.getD "unknown"

/-- `WhaleEvent` from `src/models/whale_event.py` (the fields the detector
sets; the timestamp is `datetime.now()` at creation and carries no checked
obligation). -/
structure WhaleEventM where
  market_id : String
  direction : String
  size_usd : ℚ
  wallet_address : String
  wallet_age_days : ℤ
  liquidity_frac : ℚ
  is_new_position : Bool
  previous_position_size : ℚ
  deriving Repr, DecidableEq

def MIN_SIZE_USD : ℚ := 10000

def LIQUIDITY_PERCENT : ℚ := 2 / 100

def INACTIVITY_DAYS : ℤ := 14

/-- `WalletHistory.is_wallet_inactive`: never seen in this market → inactive;
otherwise `(now - last_seen).days >= 14`. `lastSeenDaysAgo` is that day
count. -/
def is_wallet_inactive (lastSeenDaysAgo : Option ℤ) : Bool :=
  match lastSeenDaysAgo with
  | none => true
  | some d => decide (INACTIVITY_DAYS ≤ d)

/-- `WalletHistory.get_wallet_age_days`: 0 when never seen. -/
def get_wallet_age_days (lastSeenDaysAgo : Option ℤ) : ℤ :=
  match lastSeenDaysAgo with
  | none => 0
  | some d => d

/-- `WhaleDetector._evaluate_trade`: exclusion filter (called with the
wallet only — no trade list), size threshold, 14-day inactivity, and the
new-position rule (the same inactivity check, duplicated as in the source),
then the `WhaleEvent` is built. -/
def evaluate_trade (st : WhaleFilterState) (lastSeen : Option ℤ)
    (trade : WhaleTrade) (market_id : String) (liquidity threshold : ℚ)
    (now : ℕ) : Option WhaleEventM :=
  let wallet := tradeWallet trade
  if ((is_excluded st wallet none now).1).1 then none
  else if trade.size_usd < threshold then none
  else if is_wallet_inactive lastSeen = false then none
  else if is_wallet_inactive lastSeen = false then none
  else some
    { market_id := market_id
      direction := if pyUpper trade.side = "BUY" then "YES" else "NO"
      size_usd := trade.size_usd
      wallet_address := wallet
      wallet_age_days := get_wallet_age_days lastSeen
      liquidity_frac := if 0 < liquidity then trade.size_usd / liquidity else 0
      is_new_position := true
      previous_position_size := 0 }

/-- `WhaleDetector.check_market`, specialized to a single candidate trade:
excluded-pattern market names are skipped, a missing or zero liquidity
(Python falsiness of `None`/`0.0`) is skipped, the threshold is
`max($10k, 2% of liquidity)`, and the trade is then evaluated. -/
def check_trade (st : WhaleFilterState) (market_name market_id : String)
    (liquidity : Option ℚ) (lastSeen : Option ℤ) (trade : WhaleTrade)
    (now : ℕ) : Option WhaleEventM :=
  if is_excluded_market market_name then none
  else
    match liquidity with
    | none => none
    | some l =>
      if l = 0 then none
      else evaluate_trade st lastSeen trade market_id l
        (max MIN_SIZE_USD (l * LIQUIDITY_PERCENT)) now

/-! ### Theorems for the detector/filter claims -/

lemma evaluate_trade_isSome_iff (st : WhaleFilterState) (lastSeen : Option ℤ)
    (trade : WhaleTrade) (mid : String) (l thr : ℚ) (now : ℕ) :
    (evaluate_trade st lastSeen trade mid l thr now).isSome = true ↔
      (((is_excluded st (tradeWallet trade) none now).1).1 = false ∧
       thr ≤ trade.size_usd ∧ is_wallet_inactive lastSeen = true) := by
  simp only [evaluate_trade]
  split_ifs with h1 h2 h3 <;>
    simp_all [not_lt, Bool.not_eq_false, Bool.not_eq_true]

/-- C3: with the market's liquidity known, a whale event is emitted for a
trade if and only if the market name matches no excluded pattern, the
liquidity is nonzero (Python falsiness), the wallet is not
exclusion-filtered, `size_usd ≥ max($10k, 2% · liquidity)`, and the wallet's
last activity in this market is ≥ 14 days ago or absent (which is also the
new-position rule). Concretely, a $250,000 BUY on a $10M-liquidity market by
a fresh, 20-days-inactive wallet produces an event, and a $9,999 trade on
the same market does not. -/
theorem C3_whale_detection_iff :
    (∀ (st : WhaleFilterState) (name mid : String) (l : ℚ) (lastSeen : Option ℤ)
        (trade : WhaleTrade) (now : ℕ),
      (check_trade st name mid (some l) lastSeen trade now).isSome = true ↔
        (is_excluded_market name = false ∧ l ≠ 0 ∧
         ((is_excluded st (tradeWallet trade) none now).1).1 = false ∧
         max MIN_SIZE_USD (l * LIQUIDITY_PERCENT) ≤ trade.size_usd ∧
         is_wallet_inactive lastSeen = true)) ∧
    (check_trade ⟨[], []⟩ "Will X happen" "m1" (some 10000000) (some 20)
      ⟨some "0xwhale", none, 250000, "BUY"⟩ 0).isSome = true ∧
    (check_trade ⟨[], []⟩ "Will X happen" "m1" (some 10000000) (some 20)
      ⟨some "0xwhale", none, 9999, "BUY"⟩ 0) = none := by
  refine ⟨?_, ?_, ?_⟩
  · intro st name mid l lastSeen trade now
    by_cases h1 : is_excluded_market name
    · simp [check_trade, h1]
    · by_cases h2 : l = 0
      · simp [check_trade, h1, h2]
      · simp [check_trade, h1, h2, evaluate_trade_isSome_iff]
  · simp [check_trade, evaluate_trade, is_excluded, is_excluded_analyze,
      is_excluded_market, EXCLUDED_MARKET_PATTERNS, strHas, charsHas, pyLower,
      pyUpper, tradeWallet, orStr, is_wallet_inactive, get_wallet_age_days,
      MIN_SIZE_USD, LIQUIDITY_PERCENT, INACTIVITY_DAYS]
    norm_num
  · simp [check_trade, evaluate_trade, is_excluded, is_excluded_analyze,
      is_excluded_market, EXCLUDED_MARKET_PATTERNS, strHas, charsHas, pyLower,
      pyUpper, tradeWallet, orStr, is_wallet_inactive, get_wallet_age_days,
      MIN_SIZE_USD, LIQUIDITY_PERCENT, INACTIVITY_DAYS]
    norm_num

/-- Modelled from the spec: "the wallet holds both YES and NO exposure in
the same market". A trade's exposure reads BUY/YES as YES exposure and
SELL/NO as NO exposure, keyed by the trade's market (`market_id` falling
back to `token_id`). -/
def spec_same_market_hedge (trades : List FilterTrade) : Bool :=
  trades.any (fun t1 => trades.any (fun t2 =>
    orStr t1.market_id t1.token_id ≠ none ∧
    orStr t1.market_id t1.token_id = orStr t2.market_id t2.token_id ∧
    (pyUpper t1.side = "BUY" ∨ pyUpper t1.side = "YES") ∧
    (pyUpper t2.side = "SELL" ∨ pyUpper t2.side = "NO")))

/-- The C7 failing input: two same-day trades, a BUY in market "A" and a
SELL in market "B" — opposite raw sides, but never YES and NO in the same
market. -/
def c7Trades : List FilterTrade :=
  [⟨some 1000000, "BUY", some "A", none⟩,
   ⟨some 1000000, "SELL", some "B", none⟩]

/-- C7: the code contradicts its own comments ("YES + NO no mesmo mercado").
`_analyze_trades` sets `has_yes_and_no` whenever at least two distinct side
values among BUY/SELL/YES/NO appear across ALL the wallet's trades, with no
same-market pairing — so a fresh wallet with just a BUY in one market and a
SELL in another (2 trades today, 2 in 30 days, far below the frequency
thresholds, and no market holding both YES and NO exposure) is excluded as
"hedging_detected". -/
theorem C7_hedging_ignores_market_pairing :
    (is_excluded ⟨[], []⟩ "0xabc" (some c7Trades) 1000000).1 =
      (true, "hedging_detected") ∧
    spec_same_market_hedge c7Trades = false ∧
    (analyze_trades "0xabc" c7Trades 1000000).trades_today = 2 ∧
    (analyze_trades "0xabc" c7Trades 1000000).total_trades_30d = 2 := by
  refine ⟨?_, ?_, ?_, ?_⟩ <;> decide

/-- C10: a wallet that is neither blacklisted nor cached as excluded is
never excluded by `is_excluded` when called without a trade list — and
`_evaluate_trade` calls it exactly that way, so during whale detection its
verdict for such a wallet reduces to the size and inactivity checks alone. -/
theorem C10_no_trades_no_new_exclusion
    (st : WhaleFilterState) (wallet : String) (now : ℕ)
    (hb : wallet ∉ st.blacklist)
    (hc : ∀ stats, st.trader_cache.lookup wallet = some stats →
      stats.is_excluded = false) :
    (is_excluded st wallet none now).1 = (false, "") ∧
    ∀ (lastSeen : Option ℤ) (trade : WhaleTrade) (mid : String) (l thr : ℚ),
      tradeWallet trade = wallet →
      ((evaluate_trade st lastSeen trade mid l thr now).isSome = true ↔
        (thr ≤ trade.size_usd ∧ is_wallet_inactive lastSeen = true)) := by
  have hres : (is_excluded st wallet none now).1 = (false, "") := by
    simp only [is_excluded]
    rw [if_neg hb]
    cases hcache : st.trader_cache.lookup wallet with
    | none => simp [is_excluded_analyze]
    | some stats =>
      have hstats := hc stats hcache
      simp [hstats, is_excluded_analyze]
  refine ⟨hres, ?_⟩
  intro lastSeen trade mid l thr hw
  rw [evaluate_trade_isSome_iff, hw, hres]
  simp

/-- Closed instance of `C10_no_trades_no_new_exclusion` at a fresh filter
state and a concrete trade. -/
theorem C10_no_trades_no_new_exclusion_witness :
    (is_excluded ⟨[], []⟩ "0xfresh" none 0).1 = (false, "") ∧
    ((evaluate_trade ⟨[], []⟩ (some 20) ⟨some "0xfresh", none, 250000, "BUY"⟩
        "m" 1000000 200000 0).isSome = true ↔
      ((200000 : ℚ) ≤ 250000 ∧ is_wallet_inactive (some 20) = true)) := by
  have h := C10_no_trades_no_new_exclusion ⟨[], []⟩ "0xfresh" 0
    (by simp) (by intro stats hs; simp [List.lookup] at hs)
  exact ⟨h.1, h.2 (some 20) ⟨some "0xfresh", none, 250000, "BUY"⟩ "m" 1000000
    200000 (by decide)⟩

/-! ## Rate limiter and alert generator
(`src/storage/rate_limiter.py`, `src/core/alert_generator.py`)

The alert ledger (`alerts_sent` table) is a list of records; time is minutes
since an epoch, so `today_start = (now / 1440) * 1440` and the 24-hour
cooldown cutoff is `now - COOLDOWN_HOURS * 60` minutes. -/

/-- One `alerts_sent` row: `(market_id, alert_id, sent_at)`. -/
structure AlertRec where
  market_id : String
  alert_id : String
  sent_at : ℕ
  deriving Repr, DecidableEq

def MAX_ALERTS_PER_DAY : ℕ := 2

def COOLDOWN_HOURS : ℕ := 24

/-- Which gate of `RateLimiter.can_send_alert` produced the verdict; the
source returns the corresponding Portuguese reason string. -/
inductive RateReason
  | ok
  | dailyLimit
  | cooldown
  deriving Repr, DecidableEq

/-- `SELECT COUNT(*) FROM alerts_sent WHERE sent_at >= today_start`. -/
def daily_alert_count (recs : List AlertRec) (now : ℕ) : ℕ :=
  (recs.filter (fun r => (now / 1440) * 1440 ≤ r.sent_at)).length

/-- `SELECT sent_at FROM alerts_sent WHERE market_id = ? ORDER BY sent_at
DESC LIMIT 1`. -/
def latestFor (recs : List AlertRec) (market_id : String) : Option ℕ :=
  ((recs.filter (fun r => r.market_id = market_id)).map (fun r => r.sent_at)).max?

/-- `RateLimiter.can_send_alert`: the global daily cap is checked first,
then the per-market 24-hour cooldown (`last_sent > now - 24h`, strict). -/
def can_send_alert (recs : List AlertRec) (now : ℕ) (market_id : String) :
    Bool × RateReason :=
  if MAX_ALERTS_PER_DAY ≤ daily_alert_count recs now then (false, .dailyLimit)
  else
    match latestFor recs market_id with
    | some last =>
      if (now : ℤ) - COOLDOWN_HOURS * 60 < (last : ℤ) then (false, .cooldown)
      else (true, .ok)
    | none => (true, .ok)

/-- `Alert` from `src/models/alert.py` (fields the generator sets; derived
display fields — emoji, url, formatted size — are omitted, and `alert_id`,
derived from market id and wall-clock time in `__post_init__`, is taken as
an input). -/
structure AlertM where
  market_id : String
  market_name : String
  direction : String
  current_odds : ℚ
  score : ℚ
  top_reasons : List String
  alert_id : String
  deriving Repr, DecidableEq

/-- `AlertGenerator.generate`: reject on `should_alert = false`, then on a
failed rate-limit check; otherwise build the alert, record
`(market_id, alert_id, now)` in the ledger, and return it. Returns the
produced alert (if any) together with the updated ledger. -/
def generate (recs : List AlertRec) (now : ℕ) (market_id market_name : String)
    (whale_event : WhaleEventM) (score_result : ScoreResult)
    (current_odds : ℚ) (alert_id : String) : Option AlertM × List AlertRec :=
  if score_result.should_alert = false then (none, recs)
  else if (can_send_alert recs now market_id).1 = false then (none, recs)
  else
    (some { market_id := market_id
            market_name := market_name
            direction := whale_event.direction
            current_odds := current_odds
            score := score_result.total_score
            top_reasons := []
            alert_id := alert_id },
     recs ++ [⟨market_id, alert_id, now⟩])

/-- C4: `generate` rejects when `should_alert` fails and when the rate
limiter refuses; `can_send_alert` checks the global daily cap first (daily
count at the cap → daily-limit reason) and the per-market 24h cooldown
second (last alert strictly within 24h → cooldown reason); when both gates
pass, an alert is produced and `(market_id, alert_id, now)` is appended to
the ledger. Concretely: the first alert for a market succeeds; a second
attempt for the same market 30 minutes later is refused with the cooldown
reason; and with 2 = MAX_ALERTS_PER_DAY alerts already recorded today, an
attempt for a fresh market is refused with the daily-limit reason. -/
theorem C4_alert_gating
    (recs : List AlertRec) (now : ℕ) (mid mname : String) (we : WhaleEventM)
    (sr : ScoreResult) (odds : ℚ) (aid : String) :
    (sr.should_alert = false → generate recs now mid mname we sr odds aid = (none, recs)) ∧
    ((can_send_alert recs now mid).1 = false →
      generate recs now mid mname we sr odds aid = (none, recs)) ∧
    (MAX_ALERTS_PER_DAY ≤ daily_alert_count recs now →
      can_send_alert recs now mid = (false, .dailyLimit)) ∧
    (daily_alert_count recs now < MAX_ALERTS_PER_DAY →
      ∀ last, latestFor recs mid = some last →
        (now : ℤ) - COOLDOWN_HOURS * 60 < (last : ℤ) →
        can_send_alert recs now mid = (false, .cooldown)) ∧
    (sr.should_alert = true → (can_send_alert recs now mid).1 = true →
      (generate recs now mid mname we sr odds aid).1.isSome = true ∧
      (generate recs now mid mname we sr odds aid).2 = recs ++ [⟨mid, aid, now⟩]) ∧
    (can_send_alert [] 14400000 "m1" = (true, .ok)) ∧
    (can_send_alert [⟨"m1", "a1", 14400000⟩] 14400030 "m1" = (false, .cooldown)) ∧
    (can_send_alert [⟨"m1", "a1", 14400000⟩, ⟨"m2", "a2", 14400010⟩]
      14400020 "m3" = (false, .dailyLimit)) := by
  refine ⟨?_, ?_, ?_, ?_, ?_, ?_, ?_, ?_⟩
  · intro h
    simp [generate, h]
  · intro h
    simp only [generate]
    split_ifs <;> simp_all
  · intro h
    simp [can_send_alert, h]
  · intro hd last hl hc
    simp only [can_send_alert]
    rw [if_neg (by omega), hl]
    simp [hc]
  · intro hs hc
    simp [generate, hs, hc]
  · decide
  · decide
  · decide

/-- Closed instance of `C4_alert_gating`: a scoring failure blocks the
alert, and a passing score with a clear rate limiter produces one with the
ledger updated. -/
theorem C4_alert_gating_witness :
    (generate [] 14400000 "m1" "M1" ⟨"m1", "YES", 250000, "w", 20, 0, true, 0⟩
      ⟨"m1", "YES", 60, [], false⟩ 35 "a1" = (none, [])) ∧
    ((generate [] 14400000 "m1" "M1" ⟨"m1", "YES", 250000, "w", 20, 0, true, 0⟩
      ⟨"m1", "YES", 98, [], true⟩ 35 "a1").2 = [⟨"m1", "a1", 14400000⟩]) := by
  constructor
  · exact (C4_alert_gating [] 14400000 "m1" "M1"
      ⟨"m1", "YES", 250000, "w", 20, 0, true, 0⟩
      ⟨"m1", "YES", 60, [], false⟩ 35 "a1").1 rfl
  · exact ((C4_alert_gating [] 14400000 "m1" "M1"
      ⟨"m1", "YES", 250000, "w", 20, 0, true, 0⟩
      ⟨"m1", "YES", 98, [], true⟩ 35 "a1").2.2.2.2.1 rfl (by decide)).2

/-! ## Enriched signal (`src/models/enriched_signal.py`) -/

/-- The part of the Groq LLM verdict dict that `from_analysis` reads. -/
structure LLMResult where
  direction : String
  confidence : ℤ
  deriving Repr, DecidableEq

/-- Python's `int(float)`: truncation toward zero. -/
def intTrunc (q : ℚ) : ℤ := if q < 0 then Rat.ceil q else Rat.floor q

/-- The fields of `EnrichedSignal` that `from_analysis` computes and that
carry checked obligations. -/
structure EnrichedSignalM where
  market_id : String
  market_name : String
  direction : String
  should_alert : Bool
  confidence : ℤ
  score_total : ℤ
  market_liquidity : Option ℚ
  deriving Repr, DecidableEq

/-- `EnrichedSignal.from_analysis`. `market_liquidity` is the declared
keyword parameter; `kwargs` is the `**kwargs` dict restricted to rational
values. The source rebinds the parameter before use —
`market_liquidity = kwargs.get("market_liquidity")` — so the liquidity gate
and the stored field read the kwargs entry, not the declared parameter; and
Python's argument binding never places `"market_liquidity"` into `**kwargs`
(a keyword argument of that name always binds the declared parameter). -/
def from_analysis (market_id market_name : String)
    (llm_result : Option LLMResult) (score_result : Option ScoreResult)
    (market_liquidity : Option ℚ) (kwargs : List (String × ℚ)) :
    EnrichedSignalM :=
  let score_total : ℤ :=
    match score_result with
    | some sr => intTrunc sr.total_score
    | none => 0
  let llm_confidence : ℤ :=
    match llm_result with
    | some l => l.confidence
    | none => 0
  let direction : String :=
    match llm_result with
    | some l => l.direction
    | none => "HOLD"
  let base_criteria := decide (70 ≤ score_total) && decide (60 ≤ llm_confidence)
    && decide (direction = "YES" ∨ direction = "NO")
  let rebound_liquidity := kwargs.lookup "market_liquidity"
  let liquidity_ok :=
    match rebound_liquidity with
    | some v => decide (¬ v < 10000)
    | none => true
  { market_id := market_id
    market_name := market_name
    direction := direction
    should_alert := base_criteria && liquidity_ok
    confidence := llm_confidence
    score_total := score_total
    market_liquidity := rebound_liquidity }

/-- C5: the liquidity gate in `from_analysis` is dead code. The declared
`market_liquidity` parameter is immediately shadowed by
`kwargs.get("market_liquidity")`, which Python's argument binding guarantees
is `None`; so a known liquidity of $5,000 — below the $10k threshold — still
yields `should_alert = true` when the base criteria pass, and the stored
`market_liquidity` field is `none` despite the supplied value. -/
theorem C5_liquidity_gate_dead :
    (from_analysis "m" "M" (some ⟨"YES", 80⟩)
      (some ⟨"m", "YES", 80, [], true⟩) (some 5000) []).should_alert = true ∧
    (from_analysis "m" "M" (some ⟨"YES", 80⟩)
      (some ⟨"m", "YES", 80, [], true⟩) (some 5000) []).market_liquidity = none ∧
    (from_analysis "m" "M" (some ⟨"YES", 80⟩)
      (some ⟨"m", "YES", 80, [], true⟩) (some 9999)
      [("processing_time_ms", 10)]).should_alert = true := by
  refine ⟨?_, ?_, ?_⟩
  · decide
  · rfl
  · decide

/-! ## Research cache quota (`src/storage/cache.py`) -/

def NEWSAPI_DAILY_LIMIT : ℕ := 100

def NEWSAPI_MIN_QUOTA_PERCENT : ℕ := 20

/-- `ResearchCache.can_use_newsapi`, as a function of the day's recorded
request count: refuse exactly when
`(remaining / limit) * 100 < NEWSAPI_MIN_QUOTA_PERCENT`. -/
def can_use_newsapi (count : ℕ) : Bool × String :=
  let remaining : ℤ := (NEWSAPI_DAILY_LIMIT : ℤ) - count
  let percent_remaining : ℚ := ((remaining : ℚ) / (NEWSAPI_DAILY_LIMIT : ℚ)) * 100
  if percent_remaining < (NEWSAPI_MIN_QUOTA_PERCENT : ℚ) then (false, "Quota baixa")
  else (true, "OK")

/-- C9 counterexample: at `count = 80 = limit × 0.8` exactly 20% remains —
not strictly fewer — so `can_use_newsapi` still returns true, contradicting
the claim that reaching `limit × 0.8` already refuses the provider. -/
theorem C9_boundary_counterexample :
    (can_use_newsapi 80).1 = true ∧ ¬(can_use_newsapi 80).1 = false := by
  constructor
  · simp [can_use_newsapi, NEWSAPI_DAILY_LIMIT, NEWSAPI_MIN_QUOTA_PERCENT]
  · simp [can_use_newsapi, NEWSAPI_DAILY_LIMIT, NEWSAPI_MIN_QUOTA_PERCENT]

/-- C9 amended: `can_use_newsapi` returns false exactly when the daily
counter strictly exceeds `limit × 0.8` (count > 80, i.e. strictly fewer
than 20% remaining), even though the count is still below the limit
(81 < 100); at exactly `limit × 0.8` it still returns true. -/
theorem C9_quota_guardrail_amended :
    (∀ count : ℕ, (can_use_newsapi count).1 = false ↔ 80 < count) ∧
    (can_use_newsapi 81).1 = false ∧ (81 < NEWSAPI_DAILY_LIMIT) ∧
    (can_use_newsapi 80).1 = true := by
  refine ⟨?_, ?_, ?_, ?_⟩
  · intro count
    simp only [can_use_newsapi, NEWSAPI_DAILY_LIMIT, NEWSAPI_MIN_QUOTA_PERCENT]
    push_cast
    rw [div_mul_cancel₀ _ (by norm_num : (100 : ℚ) ≠ 0)]
    split_ifs with h
    · simp only [true_iff]
      have : (80 : ℚ) < (count : ℚ) := by linarith
      exact_mod_cast this
    · simp only [false_iff, not_lt]
      have : (count : ℚ) ≤ (80 : ℚ) := by linarith
      exact_mod_cast this
  · simp only [can_use_newsapi, NEWSAPI_DAILY_LIMIT, NEWSAPI_MIN_QUOTA_PERCENT]
    norm_num
  · norm_num [NEWSAPI_DAILY_LIMIT]
  · simp only [can_use_newsapi, NEWSAPI_DAILY_LIMIT, NEWSAPI_MIN_QUOTA_PERCENT]
    norm_num

/-! ## Research direction tagger (`src/core/research_loop.py`) -/

def BULLISH_KEYWORDS : List String :=
  ["breakthrough", "success", "approved", "confirmed", "achieved",
   "launches", "releases", "partnership", "funding", "raised",
   "positive", "growth", "exceeds", "surpasses", "first"]

def BEARISH_KEYWORDS : List String :=
  ["fails", "delayed", "cancelled", "rejected", "denied",
   "lawsuit", "investigation", "concerns", "risks", "warns",
   "layoffs", "downsizing", "negative", "struggles", "behind"]

/-- `sum(1 for kw in BULLISH_KEYWORDS if kw in text_lower)`. -/
def bullish_count (text_lower : String) : ℕ :=
  (BULLISH_KEYWORDS.filter (fun kw => strHas text_lower kw)).length

/-- `sum(1 for kw in BEARISH_KEYWORDS if kw in text_lower)`. -/
def bearish_count (text_lower : String) : ℕ :=
  (BEARISH_KEYWORDS.filter (fun kw => strHas text_lower kw)).length

/-- `ResearchLoop._analyze_direction`: YES when the bullish count both
exceeds the bearish count and is at least 2 in absolute terms (and
symmetrically for NO), else NEUTRAL. -/
def analyze_direction (text : String) : String :=
  let text_lower := pyLower text
  let b := bullish_count text_lower
  let r := bearish_count text_lower
  if r < b ∧ 2 ≤ b then "YES"
  else if b < r ∧ 2 ≤ r then "NO"
  else "NEUTRAL"

/-- C8 counterexample: "success approved fails" has 2 bullish and 1 bearish
keywords — a margin of exactly 1, below the claimed ≥2 margin — yet the
tagger returns YES, not NEUTRAL. -/
theorem C8_margin_counterexample :
    analyze_direction "success approved fails" = "YES" ∧
    bullish_count (pyLower "success approved fails") = 2 ∧
    bearish_count (pyLower "success approved fails") = 1 := by
  refine ⟨?_, ?_, ?_⟩ <;> decide

/-- C8 amended: the tagger returns YES exactly when the bullish count
exceeds the bearish count AND is at least 2 in absolute count (not margin),
NO symmetrically, and NEUTRAL otherwise. -/
theorem C8_direction_amended (text : String) :
    (analyze_direction text = "YES" ↔
      (bearish_count (pyLower text) < bullish_count (pyLower text) ∧
       2 ≤ bullish_count (pyLower text))) ∧
    (analyze_direction text = "NO" ↔
      (bullish_count (pyLower text) < bearish_count (pyLower text) ∧
       2 ≤ bearish_count (pyLower text))) ∧
    (analyze_direction text = "NEUTRAL" ↔
      (¬(bearish_count (pyLower text) < bullish_count (pyLower text) ∧
         2 ≤ bullish_count (pyLower text)) ∧
       ¬(bullish_count (pyLower text) < bearish_count (pyLower text) ∧
         2 ≤ bearish_count (pyLower text)))) := by
  simp only [analyze_direction]
  split_ifs with h1 h2 <;> refine ⟨?_, ?_, ?_⟩ <;> simp_all <;> omega

end Polymarket
